import Mathlib

/-!
Verification of the AI website-generation orchestration core of a NestJS
backend (`ai.service.ts`, `complex-validation.service.ts`).  The TypeScript
source is shallowly embedded: pure functions become Lean functions, the
retry loop becomes a fuel-indexed recursion over the attempt counter,
thrown JS exceptions become `Except.error` carrying the message string, and
the external collaborators (OpenAI-backed generation strategies, the Prisma
persistence layer, the generation-log service) are passed in as oracle
functions, mirroring NestJS dependency injection.
-/

/-! ## JavaScript string primitives -/
/-- JS `haystack.includes(needle)`: substring containment. -/
def jsIncludes (haystack needle : String) : Bool :=
  decide (needle.data <:+: haystack.data)

/-- JS `s.toLowerCase()`, modelled as per-character (ASCII) lowering. -/
def jsToLower (s : String) : String := ⟨s.data.map Char.toLower⟩

/-- JS `x || defaultVal` on an optional string field: `undefined` and the
empty string are falsy. -/
def jsOr (x : Option String) (dflt : String) : String :=
  match x with
  | none => dflt
  | some s => if s = "" then dflt else s

/-- JS `s || defaultVal` for a string that is always present. -/
def jsOrS (s dflt : String) : String :=
  if s = "" then dflt else s

/-- JS truthiness test `!x` for an optional string field (missing key or
empty string are falsy). -/
def isFalsyStr (x : Option String) : Bool :=
  match x with
  | none => true
  | some s => s = ""

/-! ## `analyzePromptComplexity` (ai.service.ts lines 105-172) -/
/-- The `{ level, features, score }` object returned by
`analyzePromptComplexity`. -/
structure Complexity where
  level : String
  features : List String
  score : Nat
deriving Repr, DecidableEq

/-- Embeds `analyzePromptComplexity`: keyword rules are case-insensitive substring
matches against the prompt; each matched rule appends its feature tag and
adds its weight to the score; tier thresholds are `score >= 8` for
`complex` and `score >= 4` for `moderate`. -/
def analyzePromptComplexity (prompt : String) : Complexity :=
  let f1 := jsIncludes (jsToLower prompt) "e-commerce" || jsIncludes (jsToLower prompt) "shopping"
  let f2 := jsIncludes (jsToLower prompt) "cart" || jsIncludes (jsToLower prompt) "checkout"
  let f3 := jsIncludes (jsToLower prompt) "product" || jsIncludes (jsToLower prompt) "catalog"
  let f4 := jsIncludes (jsToLower prompt) "carousel" || jsIncludes (jsToLower prompt) "slider"
  let f5 := jsIncludes (jsToLower prompt) "modal" || jsIncludes (jsToLower prompt) "popup"
  let f6 := jsIncludes (jsToLower prompt) "animation" || jsIncludes (jsToLower prompt) "hover"
  let f7 := jsIncludes (jsToLower prompt) "dashboard" || jsIncludes (jsToLower prompt) "admin"
  let f8 := jsIncludes (jsToLower prompt) "multi-page" || jsIncludes (jsToLower prompt) "multiple pages"
  let f9 := jsIncludes (jsToLower prompt) "gradient" || jsIncludes (jsToLower prompt) "custom"
  let f10 := jsIncludes (jsToLower prompt) "responsive" || jsIncludes (jsToLower prompt) "mobile"
  let f11 := jsIncludes (jsToLower prompt) "login" || jsIncludes (jsToLower prompt) "auth"
  let f12 := jsIncludes (jsToLower prompt) "user" || jsIncludes (jsToLower prompt) "profile"
  let features : List String :=
    (if f1 then ["ecommerce"] else []) ++
    (if f2 then ["shopping_cart"] else []) ++
    (if f3 then ["product_catalog"] else []) ++
    (if f4 then ["carousel"] else []) ++
    (if f5 then ["modal"] else []) ++
    (if f6 then ["animations"] else []) ++
    (if f7 then ["dashboard"] else []) ++
    (if f8 then ["multi_page"] else []) ++
    (if f9 then ["advanced_styling"] else []) ++
    (if f10 then ["responsive"] else []) ++
    (if f11 then ["authentication"] else []) ++
    (if f12 then ["user_management"] else [])
  let score : Nat :=
    (if f1 then 3 else 0) + (if f2 then 2 else 0) + (if f3 then 2 else 0) +
    (if f4 then 2 else 0) + (if f5 then 1 else 0) + (if f6 then 2 else 0) +
    (if f7 then 3 else 0) + (if f8 then 2 else 0) + (if f9 then 1 else 0) +
    (if f10 then 1 else 0) + (if f11 then 2 else 0) + (if f12 then 2 else 0)
  let level := if score ≥ 8 then "complex" else if score ≥ 4 then "moderate" else "simple"
  { level := level, features := features, score := score }

/-- Every keyword appearing in one of the analyzer's rules. -/
def ruleKeywords : List String :=
  ["e-commerce", "shopping", "cart", "checkout", "product", "catalog",
   "carousel", "slider", "modal", "popup", "animation", "hover",
   "dashboard", "admin", "multi-page", "multiple pages", "gradient",
   "custom", "responsive", "mobile", "login", "auth", "user", "profile"]

/-- The fixed set of feature tags `analyzePromptComplexity` can emit. -/
def analyzerTags : List String :=
  ["ecommerce", "shopping_cart", "product_catalog", "carousel", "modal",
   "animations", "dashboard", "multi_page", "advanced_styling",
   "responsive", "authentication", "user_management"]

/-! ## `determineCategory` / `determineTheme` (lines 581-592) -/
def determineCategory (features : List String) : String :=
  if features.contains "ecommerce" then "ecommerce"
  else if features.contains "dashboard" then "dashboard"
  else if features.contains "authentication" then "webapp"
  else "website"

def determineTheme (features : List String) : String :=
  if features.contains "dark" then "dark"
  else if features.contains "luxury" || features.contains "premium" then "luxury"
  else "modern"

/-! ## Strategy selection (`generateWebsite` lines 67-73) -/
inductive StrategyKind where
  | simpleShot
  | moderateShot
  | multiStep
deriving Repr, DecidableEq

/-- The `if complexity.level === 'simple' / 'moderate' / else` dispatch in
`generateWebsite`.  (`generateModerateWebsite` delegates verbatim to
`generateSimpleWebsite`, line 596, so `moderateShot` behaves like
`simpleShot`; the dispatch itself is three-way.) -/
def selectStrategy (level : String) : StrategyKind :=
  if level = "simple" then .simpleShot
  else if level = "moderate" then .moderateShot
  else .multiStep

/-! ## Artifact data model

`GeneratedContent` is the shape of the parsed generation result that the
validator and the persistence path read (`nextjsContent` with `page.tsx`,
`layout.tsx`, `globals.css` and a `components` map, plus the outer
`packageJson` / `tailwindConfig` / `metadata` fields).  Fields that may be
absent in the duck-typed JS object are `Option`s. -/
structure NextjsContent where
  pageTsx : Option String
  layoutTsx : Option String
  globalsCss : Option String
  components : Option (List (String × String))
  indexTsx : Option String
  appTsx : Option String
deriving Repr, DecidableEq

structure GeneratedContent where
  nextjsContent : Option NextjsContent
  packageJson : Option String
  tailwindConfig : Option String
  metadata : Option (List (String × String))
deriving Repr, DecidableEq

/-! ## JSON.stringify (used by the code-quality heuristics and persistence) -/
def doubleQuoteCh : Char := Char.ofNat 34

def singleQuoteCh : Char := Char.ofNat 39

def backslashCh : Char := Char.ofNat 92

def jsonEscapeChar (c : Char) : String :=
  if c = doubleQuoteCh then "\\\""
  else if c = backslashCh then "\\\\"
  else if c = '\n' then "\\n"
  else if c = '\t' then "\\t"
  else if c = '\r' then "\\r"
  else String.singleton c

def jsonEscape (s : String) : String := String.join (s.data.map jsonEscapeChar)

def jsonStr (s : String) : String := "\"" ++ jsonEscape s ++ "\""

def jsonObj (fields : List (String × String)) : String :=
  "\x7b" ++ String.intercalate "," (fields.map (fun p => jsonStr p.1 ++ ":" ++ p.2)) ++ "\x7d"

def optJsonField (key : String) : Option String → List (String × String)
  | none => []
  | some v => [(key, jsonStr v)]

/-- Embeds `JSON.stringify(nextjsContent)` (undefined-valued keys are omitted). -/
def stringifyNextjs (nc : NextjsContent) : String :=
  jsonObj (optJsonField "page.tsx" nc.pageTsx ++ optJsonField "layout.tsx" nc.layoutTsx ++
    optJsonField "globals.css" nc.globalsCss ++
    (match nc.components with
      | none => []
      | some comps => [("components", jsonObj (comps.map (fun p => (p.1, jsonStr p.2))))]) ++
    optJsonField "index.tsx" nc.indexTsx ++ optJsonField "_app.tsx" nc.appTsx)

/-! ## `ComplexValidationService` (complex-validation.service.ts) -/
structure ValidationResult where
  isValid : Bool
  errors : List String
  warnings : List String
  score : Nat
  suggestions : List String
deriving Repr, DecidableEq

structure ComponentValidation where
  hasProps : Bool
  hasState : Bool
  hasEffects : Bool
  hasErrorHandling : Bool
  hasAccessibility : Bool
  isResponsive : Bool
deriving Repr, DecidableEq

def hasTypeScriptProps (code : String) : Bool :=
  jsIncludes code "interface" || jsIncludes code "type " || jsIncludes code ": \x7b" ||
    jsIncludes code "Props"

def hasStateManagement (code : String) : Bool :=
  jsIncludes code "useState" || jsIncludes code "useReducer" || jsIncludes code "setState"

def hasUseEffect (code : String) : Bool :=
  jsIncludes code "useEffect" || jsIncludes code "componentDidMount" ||
    jsIncludes code "componentDidUpdate"

def hasErrorHandling (code : String) : Bool :=
  jsIncludes code "try" || jsIncludes code "catch" || jsIncludes code "Error" ||
    jsIncludes code "error"

def hasAccessibilityFeatures (code : String) : Bool :=
  jsIncludes code "aria-" || jsIncludes code "role=" || jsIncludes code "alt=" ||
    jsIncludes code "tabIndex"

def isResponsive (code : String) : Bool :=
  jsIncludes code "sm:" || jsIncludes code "md:" || jsIncludes code "lg:" ||
    jsIncludes code "xl:" || jsIncludes code "@media" || jsIncludes code "responsive"

def validateSingleComponent (code : String) : ComponentValidation :=
  { hasProps := hasTypeScriptProps code
    hasState := hasStateManagement code
    hasEffects := hasUseEffect code
    hasErrorHandling := hasErrorHandling code
    hasAccessibility := hasAccessibilityFeatures code
    isResponsive := isResponsive code }

/-- JS falsiness of the `components` field followed by the
`Object.keys(...).length === 0` check. -/
def componentsMissing : Option (List (String × String)) → Bool
  | none => true
  | some comps => comps.length == 0

/-- Embeds `validateBasicStructure` (lines 66-114): rule-1 structural checks. -/
def validateBasicStructure (content : GeneratedContent) : ValidationResult :=
  match content.nextjsContent with
  | none =>
    { isValid := false, errors := ["Missing nextjsContent"], warnings := [], score := 0,
      suggestions := [] }
  | some nc =>
    let errors :=
      (if isFalsyStr nc.pageTsx then ["Missing main page.tsx"] else []) ++
      (if isFalsyStr nc.layoutTsx then ["Missing layout.tsx"] else []) ++
      (if isFalsyStr nc.globalsCss then ["Missing globals.css"] else []) ++
      (if componentsMissing nc.components then ["Missing components"] else [])
    let warnings :=
      (match nc.pageTsx with
        | some s => if s ≠ "" ∧ s.length < 100 then ["Main page content seems too short"] else []
        | none => []) ++
      (match nc.components with
        | some comps =>
          if comps.length ≠ 0 ∧ comps.length < 3 then
            ["Consider adding more components for better structure"]
          else []
        | none => [])
    let score :=
      (if isFalsyStr nc.pageTsx then 0 else 10) +
      (if isFalsyStr nc.layoutTsx then 0 else 10) +
      (if isFalsyStr nc.globalsCss then 0 else 5) +
      (if componentsMissing nc.components then 0 else 15)
    { isValid := errors.isEmpty, errors := errors, warnings := warnings, score := score,
      suggestions := [] }

/-- Embeds `validateComponents` (lines 116-169), on the already-destructured
`nextjsContent`. -/
def validateComponents (nc : NextjsContent) (complexity : Complexity) : ValidationResult :=
  match nc.components with
  | none => { isValid := false, errors := [], warnings := [], score := 0, suggestions := [] }
  | some comps =>
    let warnings := comps.flatMap (fun p =>
      let cv := validateSingleComponent p.2
      (if ¬ cv.hasProps = true ∧ complexity.level = "complex" then
        ["Component " ++ p.1 ++ " should have proper TypeScript props"] else []) ++
      (if ¬ cv.hasState = true ∧ complexity.features.contains "interactive" = true then
        ["Component " ++ p.1 ++ " might need state management"] else []) ++
      (if ¬ cv.hasAccessibility = true then
        ["Component " ++ p.1 ++ " should include accessibility features"] else []) ++
      (if ¬ cv.isResponsive = true then
        ["Component " ++ p.1 ++ " should be responsive"] else []))
    let score := (comps.map (fun p =>
      let cv := validateSingleComponent p.2
      (if cv.hasProps then 5 else 0) + (if cv.hasState then 5 else 0) +
      (if cv.hasEffects then 5 else 0) + (if cv.hasErrorHandling then 5 else 0) +
      (if cv.hasAccessibility then 5 else 0) + (if cv.isResponsive then 5 else 0))).sum
    let componentNames := comps.map Prod.fst
    let errors :=
      if complexity.level = "complex" then
        (if componentNames.any (fun n => jsIncludes n "Header") then []
          else ["Missing required component: Header"]) ++
        (if componentNames.any (fun n => jsIncludes n "Footer") then []
          else ["Missing required component: Footer"])
      else []
    { isValid := errors.isEmpty, errors := errors, warnings := warnings, score := score,
      suggestions := [] }

/-- Embeds `hasComponent` (lines 317-324): case-insensitive substring match over
the fragment keys. -/
def hasComponent (nc : NextjsContent) (componentName : String) : Bool :=
  match nc.components with
  | none => false
  | some comps =>
    (comps.map Prod.fst).any (fun n => jsIncludes (jsToLower n) (jsToLower componentName))

def validateEcommerceFeatures (nc : NextjsContent) : ValidationResult :=
  let hasProductCard := hasComponent nc "ProductCard" || hasComponent nc "Product"
  let hasCart := hasComponent nc "Cart" || hasComponent nc "ShoppingCart"
  let hasCheckout := hasComponent nc "Checkout" || hasComponent nc "Payment"
  let errors :=
    (if hasProductCard then [] else ["Missing product display component for e-commerce"]) ++
    (if hasCart then [] else ["Missing shopping cart component for e-commerce"])
  let warnings :=
    if hasCheckout then []
    else ["Consider adding checkout component for complete e-commerce flow"]
  let score := (if hasProductCard then 10 else 0) + (if hasCart then 10 else 0) +
    (if hasCheckout then 10 else 0)
  { isValid := errors.isEmpty, errors := errors, warnings := warnings, score := score,
    suggestions := [] }

def validateInteractiveFeatures (nc : NextjsContent) : ValidationResult :=
  let hasCarousel := hasComponent nc "Carousel" || hasComponent nc "Slider"
  let hasModal := hasComponent nc "Modal" || hasComponent nc "Dialog"
  let errors := if hasCarousel then [] else ["Missing carousel/slider component"]
  let warnings := if hasModal then [] else ["Consider adding modal component for better UX"]
  let score := (if hasCarousel then 10 else 0) + (if hasModal then 5 else 0)
  { isValid := errors.isEmpty, errors := errors, warnings := warnings, score := score,
    suggestions := [] }

def validateAuthenticationFeatures (nc : NextjsContent) : ValidationResult :=
  let hasLogin := hasComponent nc "Login" || hasComponent nc "SignIn"
  let hasRegister := hasComponent nc "Register" || hasComponent nc "SignUp"
  let errors := if hasLogin then [] else ["Missing login component for authentication"]
  let warnings := if hasRegister then [] else ["Consider adding registration component"]
  let score := (if hasLogin then 10 else 0) + (if hasRegister then 5 else 0)
  { isValid := errors.isEmpty, errors := errors, warnings := warnings, score := score,
    suggestions := [] }

/-- Embeds `validateFeatures` (lines 207-239). -/
def validateFeatures (nc : NextjsContent) (complexity : Complexity) : ValidationResult :=
  let eco := if complexity.features.contains "ecommerce" then validateEcommerceFeatures nc
    else { isValid := true, errors := [], warnings := [], score := 0, suggestions := [] }
  let inter := if complexity.features.contains "carousel" || complexity.features.contains "slider"
    then validateInteractiveFeatures nc
    else { isValid := true, errors := [], warnings := [], score := 0, suggestions := [] }
  let auth := if complexity.features.contains "authentication" then
      validateAuthenticationFeatures nc
    else { isValid := true, errors := [], warnings := [], score := 0, suggestions := [] }
  let errors := eco.errors ++ inter.errors ++ auth.errors
  let warnings := eco.warnings ++ inter.warnings ++ auth.warnings
  { isValid := errors.isEmpty, errors := errors, warnings := warnings,
    score := eco.score + inter.score + auth.score, suggestions := [] }

def hasTypeScriptUsage (nc : NextjsContent) : Bool :=
  jsIncludes (stringifyNextjs nc) "interface" || jsIncludes (stringifyNextjs nc) "type " ||
    jsIncludes (stringifyNextjs nc) ": "

def hasModernReactPatterns (nc : NextjsContent) : Bool :=
  jsIncludes (stringifyNextjs nc) "useState" || jsIncludes (stringifyNextjs nc) "useEffect" ||
    jsIncludes (stringifyNextjs nc) "const " || jsIncludes (stringifyNextjs nc) "=>"

def hasPerformanceOptimizations (nc : NextjsContent) : Bool :=
  jsIncludes (stringifyNextjs nc) "React.memo" || jsIncludes (stringifyNextjs nc) "useCallback" ||
    jsIncludes (stringifyNextjs nc) "useMemo" || jsIncludes (stringifyNextjs nc) "lazy"

/-- Embeds `validateCodeQuality` (lines 326-358): warnings and score only, never
errors. -/
def validateCodeQuality (nc : NextjsContent) : ValidationResult :=
  let warnings :=
    (if hasTypeScriptUsage nc then [] else ["Consider using TypeScript for better type safety"]) ++
    (if hasModernReactPatterns nc then []
      else ["Consider using modern React patterns (hooks, functional components)"]) ++
    (if hasPerformanceOptimizations nc then []
      else ["Consider adding performance optimizations (memo, useCallback)"])
  let score := (if hasTypeScriptUsage nc then 10 else 0) +
    (if hasModernReactPatterns nc then 10 else 0) +
    (if hasPerformanceOptimizations nc then 5 else 0)
  { isValid := true, errors := [], warnings := warnings, score := score, suggestions := [] }

/-- Embeds `generateSuggestions` (lines 377-407). -/
def generateSuggestions (complexity : Complexity) (errors warnings : List String) :
    List String :=
  (if complexity.level = "complex" then
    ["For complex websites, consider breaking down into smaller, focused components",
     "Implement proper state management with Context API or Redux",
     "Add comprehensive error boundaries for better error handling"] else []) ++
  (if complexity.features.contains "ecommerce" then
    ["Add product filtering and search functionality",
     "Implement shopping cart persistence with localStorage",
     "Add user authentication for personalized experience"] else []) ++
  (if complexity.features.contains "responsive" then
    ["Test on multiple device sizes and orientations",
     "Use CSS Grid and Flexbox for complex layouts",
     "Implement touch-friendly interactions for mobile"] else []) ++
  (if errors.length ≠ 0 then
    ["Review the validation errors and ensure all required components are present"] else []) ++
  (if warnings.length ≠ 0 then
    ["Address the warnings to improve code quality and user experience"] else [])

/-- Embeds `validateComplexWebsite` (lines 24-64).  When `nextjsContent` is
absent, `validateBasicStructure` returns its early error but
`validateComponents` then dereferences `nextjsContent.components` on
`undefined`, so the whole call raises a JS `TypeError`; this is modelled as
`Except.error`. -/
def validateComplexWebsite (content : GeneratedContent) (complexity : Complexity) :
    Except String ValidationResult :=
  let basic := validateBasicStructure content
  match content.nextjsContent with
  | none => Except.error "TypeError: Cannot read properties of undefined (reading 'components')"
  | some nc =>
    let comp := validateComponents nc complexity
    let feat := validateFeatures nc complexity
    let qual := validateCodeQuality nc
    let errors := basic.errors ++ comp.errors ++ feat.errors ++ qual.errors
    let warnings := basic.warnings ++ comp.warnings ++ feat.warnings ++ qual.warnings
    let score := basic.score + comp.score + feat.score + qual.score
    Except.ok
      { isValid := errors.isEmpty, errors := errors, warnings := warnings, score := score,
        suggestions := generateSuggestions complexity errors warnings }

/-! ## `GenerateWebsiteDto` (generate-website.dto.ts): prompt plus optional
title, description and public flag. -/
structure GenerateWebsiteDto where
  prompt : String
  title : Option String
  description : Option String
  isPublic : Option Bool
deriving Repr, DecidableEq

/-! ## `generateAdvancedFallbackWebsite` content templates (lines 716-902)

The template literals are transcribed verbatim; each `${...}` interpolation
becomes a concatenation with the corresponding `jsOr` defaulting. -/
/-- The `page.tsx` template of `generateAdvancedFallbackWebsite` with its five interpolations. -/
def fallbackPageTsx (dto : GenerateWebsiteDto) (complexity : Complexity) : String :=
  "import React from 'react';\nimport \x7b useState, useEffect \x7d from 'react';\n\nexport default function Page() \x7b\n  const [isLoading, setIsLoading] = useState(true);\n\n  useEffect(() => \x7b\n    setIsLoading(false);\n  \x7d, []);\n\n  if (isLoading) \x7b\n    return (\n      <div className=\"min-h-screen bg-gray-100 flex items-center justify-center\">\n        <div className=\"animate-spin rounded-full h-32 w-32 border-b-2 border-blue-600\"></div>\n      </div>\n    );\n  \x7d\n\n  return (\n    <div className=\"min-h-screen bg-gradient-to-br from-gray-900 to-gray-800\">\n      <div className=\"container mx-auto px-4 py-16\">\n        <div className=\"text-center mb-16\">\n          <h1 className=\"text-6xl font-bold text-white mb-6\">\n            " ++
  jsOr dto.title "Advanced Website" ++
  "\n          </h1>\n          <p className=\"text-xl text-gray-300 mb-8 max-w-3xl mx-auto\">\n            " ++
  jsOr dto.description "A sophisticated, responsive website with advanced features." ++
  "\n          </p>\n          <div className=\"flex justify-center space-x-4\">\n            <button className=\"bg-blue-600 hover:bg-blue-700 text-white px-8 py-3 rounded-lg transition-colors\">\n              Get Started\n            </button>\n            <button className=\"border border-gray-300 hover:border-white text-white px-8 py-3 rounded-lg transition-colors\">\n              Learn More\n            </button>\n          </div>\n        </div>\n\n        <div className=\"grid md:grid-cols-3 gap-8 mb-16\">\n          <div className=\"bg-white rounded-lg p-6 shadow-lg\">\n            <h3 className=\"text-xl font-semibold mb-4\">Advanced Features</h3>\n            <p className=\"text-gray-600\">This fallback website includes modern design patterns and responsive layouts.</p>\n          </div>\n          <div className=\"bg-white rounded-lg p-6 shadow-lg\">\n            <h3 className=\"text-xl font-semibold mb-4\">Responsive Design</h3>\n            <p className=\"text-gray-600\">Optimized for all devices with mobile-first approach.</p>\n          </div>\n          <div className=\"bg-white rounded-lg p-6 shadow-lg\">\n            <h3 className=\"text-xl font-semibold mb-4\">Modern Stack</h3>\n            <p className=\"text-gray-600\">Built with Next.js, React, and Tailwind CSS.</p>\n          </div>\n        </div>\n\n        <div className=\"bg-white rounded-lg p-8 shadow-lg\">\n          <h2 className=\"text-3xl font-bold mb-6\">About This Website</h2>\n          <p className=\"text-gray-700 mb-4\">\n            This is an advanced fallback website generated when AI generation failed.\n            The original prompt was: \"" ++
  dto.prompt ++
  "\"\n          </p>\n          <p className=\"text-gray-700\">\n            Complexity Level: " ++
  jsOrS complexity.level "simple" ++
  " | \n            Features: " ++
  jsOrS (String.intercalate ", " complexity.features) "basic" ++
  "\n          </p>\n        </div>\n      </div>\n    </div>\n  );\n\x7d"

/-- The `layout.tsx` template of the fallback content. -/
def fallbackLayoutTsx (dto : GenerateWebsiteDto) : String :=
  "import React from 'react';\nimport Head from 'next/head';\n\nexport default function Layout(\x7b children \x7d: \x7b children: React.ReactNode \x7d) \x7b\n  return (\n    <html lang=\"en\">\n      <Head>\n        <title>" ++
  jsOr dto.title "Advanced Website" ++
  "</title>\n        <meta name=\"description\" content=\"" ++
  jsOr dto.description "Advanced website with modern features" ++
  "\" />\n        <meta name=\"viewport\" content=\"width=device-width, initial-scale=1\" />\n        <link rel=\"icon\" href=\"/favicon.ico\" />\n      </Head>\n      <body className=\"antialiased\">\n        \x7bchildren\x7d\n      </body>\n    </html>\n  );\n\x7d"

/-- The `globals.css` template of the fallback content (no interpolation). -/
def fallbackGlobalsCss : String :=
  "@tailwind base;\n@tailwind components;\n@tailwind utilities;\n\n@layer base \x7b\n  html \x7b\n    font-family: -apple-system, BlinkMacSystemFont, 'Segoe UI', 'Roboto', sans-serif;\n  \x7d\n  \n  body \x7b\n    @apply text-gray-900 bg-white;\n  \x7d\n\x7d\n\n@layer components \x7b\n  .btn-primary \x7b\n    @apply bg-blue-600 hover:bg-blue-700 text-white font-medium py-2 px-4 rounded-lg transition-colors;\n  \x7d\n  \n  .card \x7b\n    @apply bg-white rounded-lg shadow-lg p-6;\n  \x7d\n\x7d\n\n@layer utilities \x7b\n  .text-gradient \x7b\n    @apply bg-gradient-to-r from-blue-600 to-purple-600 bg-clip-text text-transparent;\n  \x7d\n\x7d"

/-- The `Header.tsx` fallback component template. -/
def fallbackHeaderTsx (dto : GenerateWebsiteDto) : String :=
  "import React from 'react';\n\nexport default function Header() \x7b\n  return (\n    <header className=\"bg-white shadow-sm border-b\">\n      <div className=\"container mx-auto px-4 py-4\">\n        <div className=\"flex justify-between items-center\">\n          <h1 className=\"text-2xl font-bold text-gray-900\">\n            " ++
  jsOr dto.title "Advanced Website" ++
  "\n          </h1>\n          <nav className=\"hidden md:flex space-x-6\">\n            <a href=\"#\" className=\"text-gray-600 hover:text-gray-900\">Home</a>\n            <a href=\"#\" className=\"text-gray-600 hover:text-gray-900\">Features</a>\n            <a href=\"#\" className=\"text-gray-600 hover:text-gray-900\">About</a>\n            <a href=\"#\" className=\"text-gray-600 hover:text-gray-900\">Contact</a>\n          </nav>\n        </div>\n      </div>\n    </header>\n  );\n\x7d"

/-- The `Footer.tsx` fallback component template (no interpolation). -/
def fallbackFooterTsx : String :=
  "import React from 'react';\n\nexport default function Footer() \x7b\n  return (\n    <footer className=\"bg-gray-900 text-white py-12\">\n      <div className=\"container mx-auto px-4\">\n        <div className=\"grid md:grid-cols-4 gap-8\">\n          <div>\n            <h3 className=\"text-lg font-semibold mb-4\">Company</h3>\n            <ul className=\"space-y-2\">\n              <li><a href=\"#\" className=\"text-gray-300 hover:text-white\">About</a></li>\n              <li><a href=\"#\" className=\"text-gray-300 hover:text-white\">Careers</a></li>\n              <li><a href=\"#\" className=\"text-gray-300 hover:text-white\">Contact</a></li>\n            </ul>\n          </div>\n          <div>\n            <h3 className=\"text-lg font-semibold mb-4\">Products</h3>\n            <ul className=\"space-y-2\">\n              <li><a href=\"#\" className=\"text-gray-300 hover:text-white\">Features</a></li>\n              <li><a href=\"#\" className=\"text-gray-300 hover:text-white\">Pricing</a></li>\n              <li><a href=\"#\" className=\"text-gray-300 hover:text-white\">Support</a></li>\n            </ul>\n          </div>\n          <div>\n            <h3 className=\"text-lg font-semibold mb-4\">Resources</h3>\n            <ul className=\"space-y-2\">\n              <li><a href=\"#\" className=\"text-gray-300 hover:text-white\">Documentation</a></li>\n              <li><a href=\"#\" className=\"text-gray-300 hover:text-white\">Blog</a></li>\n              <li><a href=\"#\" className=\"text-gray-300 hover:text-white\">Help Center</a></li>\n            </ul>\n          </div>\n          <div>\n            <h3 className=\"text-lg font-semibold mb-4\">Connect</h3>\n            <div className=\"flex space-x-4\">\n              <a href=\"#\" className=\"text-gray-300 hover:text-white\">Twitter</a>\n              <a href=\"#\" className=\"text-gray-300 hover:text-white\">LinkedIn</a>\n              <a href=\"#\" className=\"text-gray-300 hover:text-white\">GitHub</a>\n            </div>\n          </div>\n        </div>\n        <div className=\"border-t border-gray-800 mt-8 pt-8 text-center text-gray-400\">\n          <p>&copy; 2024 Advanced Website. All rights reserved.</p>\n        </div>\n      </div>\n    </footer>\n  );\n\x7d"

/-- The assembled `fallbackContent` object (its keys are `page.tsx`,
`layout.tsx`, `globals.css` and a two-entry `components` map). -/
def fallbackNextjsContent (dto : GenerateWebsiteDto) (complexity : Complexity) : NextjsContent :=
  { pageTsx := some (fallbackPageTsx dto complexity)
    layoutTsx := some (fallbackLayoutTsx dto)
    globalsCss := some fallbackGlobalsCss
    components := some [("Header.tsx", fallbackHeaderTsx dto), ("Footer.tsx", fallbackFooterTsx)]
    indexTsx := none
    appTsx := none }

/-- Reading the validator's artifact fields off the raw `fallbackContent`
object: it has no `nextjsContent`, `packageJson`, `tailwindConfig` or
`metadata` key (its own keys live at top level), so all four fields the
validator reads are `undefined`. -/
def fallbackContentAsArtifact (_fallbackContent : NextjsContent) : GeneratedContent :=
  { nextjsContent := none, packageJson := none, tailwindConfig := none, metadata := none }

/-- The `fallbackMetadata` object (lines 904-916). -/
structure FallbackMetadata where
  category : String
  theme : String
  features : List String
  framework : String
  styling : String
  generationAttempts : Nat
  generationSuccess : Bool
  fallbackReason : String
  isFallback : Bool
  complexity : String
  originalFeatures : List String
deriving Repr, DecidableEq

def fallbackMetadataOf (complexity : Complexity) (lastErrorMsg : String) : FallbackMetadata :=
  { category := if complexity.level = "complex" then "advanced" else "website"
    theme := "modern"
    features := ["Responsive Design", "Advanced Fallback", "Modern UI"]
    framework := "Next.js 14"
    styling := "Tailwind CSS + Custom CSS"
    generationAttempts := 3
    generationSuccess := false
    fallbackReason := jsOrS lastErrorMsg "AI generation failed"
    isFallback := true
    complexity := jsOrS complexity.level "simple"
    originalFeatures := complexity.features }

/-! ## Persistence and audit-log collaborators

`prisma.website.create` is modelled as an oracle from the create payload to
either a thrown error or the DB-generated row metadata (id, timestamps);
the created row echoes the payload fields.  `generationLogService
.logGeneration` is an oracle returning unit or throwing.  Wall-clock
durations (`Date.now() - startTime`) are supplied as an `elapsed` oracle
value. -/
structure DbMeta where
  id : String
  createdAt : Nat
  updatedAt : Nat
deriving Repr, DecidableEq

structure WebsiteCreateData (M : Type) where
  title : String
  description : String
  prompt : String
  htmlContent : String
  cssContent : String
  metadata : M
  isPublic : Bool
deriving Repr, DecidableEq

structure GenResponse (M : Type) where
  id : String
  title : String
  description : String
  prompt : String
  htmlContent : String
  cssContent : String
  isPublic : Bool
  createdAt : Nat
  updatedAt : Nat
  metadata : M
deriving Repr, DecidableEq

structure LogEntry where
  prompt : String
  response : String
  duration : Nat
  tokens : Nat
deriving Repr, DecidableEq

/-- The `WebsiteGenerationResponseDto` built from the created row. -/
def websiteRecordResponse {M : Type} (d : WebsiteCreateData M) (dbm : DbMeta) : GenResponse M :=
  { id := dbm.id, title := d.title, description := d.description, prompt := d.prompt,
    htmlContent := d.htmlContent, cssContent := d.cssContent, isPublic := d.isPublic,
    createdAt := dbm.createdAt, updatedAt := dbm.updatedAt, metadata := d.metadata }

/-! ## Title/description extraction (lines 953-964)

`/title.*?['"`](.*?)['"`]/i`: scanning left to right, the pattern matches
at the first position where the keyword (case-insensitively) is followed,
on the same line, by two quote characters; the capture is the text between
those first two quotes. -/
def tick : Char := Char.ofNat 96

def isQuoteCh (c : Char) : Bool := c = singleQuoteCh || c = doubleQuoteCh || c = tick

/-- Try to complete `.*?['"`](.*?)['"`]` right after a keyword match. -/
def regexCaptureAt (cs : List Char) : Option String :=
  let seg := cs.takeWhile (fun c => c ≠ '\n')
  match seg.dropWhile (fun c => !(isQuoteCh c)) with
  | [] => none
  | _ :: rest =>
    if (rest.dropWhile (fun c => !(isQuoteCh c))).isEmpty then none
    else some ⟨rest.takeWhile (fun c => !(isQuoteCh c))⟩

/-- Leftmost match of `/kw.*?['"`](.*?)['"`]/i` over the haystack. -/
def regexFirstCapture (kw : List Char) : List Char → Option String
  | [] => none
  | c :: rest =>
    if kw.isPrefixOf ((c :: rest).map Char.toLower) then
      match regexCaptureAt ((c :: rest).drop kw.length) with
      | some cap => some cap
      | none => regexFirstCapture kw rest
    else regexFirstCapture kw rest

def extractTitleFromNextjs (nc : NextjsContent) : String :=
  let pageContent := jsOr nc.pageTsx (jsOr nc.indexTsx "")
  let layoutContent := jsOr nc.layoutTsx (jsOr nc.appTsx "")
  match regexFirstCapture "title".data (pageContent ++ layoutContent).data with
  | some t => t
  | none => "Generated Next.js Website"

def extractDescriptionFromNextjs (nc : NextjsContent) : String :=
  let pageContent := jsOr nc.pageTsx (jsOr nc.indexTsx "")
  match regexFirstCapture "description".data pageContent.data with
  | some d => d
  | none => "AI-generated Next.js application"

/-- Embeds the `JSON.stringify(parsedResponse)` blob logged by `saveGeneratedWebsite`. -/
def stringifyGeneratedContent (c : GeneratedContent) : String :=
  jsonObj ((match c.nextjsContent with
      | none => []
      | some nc => [("nextjsContent", stringifyNextjs nc)]) ++
    optJsonField "packageJson" c.packageJson ++
    optJsonField "tailwindConfig" c.tailwindConfig ++
    (match c.metadata with
      | none => []
      | some m => [("metadata", jsonObj (m.map (fun p => (p.1, jsonStr p.2))))]))

/-- The saved-path metadata blob (lines 676-685): the artifact's own
metadata spread first, then the fixed fields. -/
structure SavedMetadata where
  base : Option (List (String × String))
  packageJson : String
  framework : String
  styling : String
  complexity : String
  generationMethod : String
  tokensUsed : Nat
  generationTime : Nat
deriving Repr, DecidableEq

/-- Embeds `saveGeneratedWebsite` (lines 666-711). -/
def saveGeneratedWebsite
    (prismaCreate : WebsiteCreateData SavedMetadata → Except String DbMeta)
    (logGeneration : LogEntry → Except String Unit)
    (elapsed : Nat) (dto : GenerateWebsiteDto) (complexity : Complexity)
    (tokensUsed : Nat) (parsedResponse : GeneratedContent) :
    Except String (GenResponse SavedMetadata) :=
  match parsedResponse.nextjsContent with
  | none => Except.error "TypeError: Cannot read properties of undefined (reading 'page.tsx')"
  | some nc =>
    let data : WebsiteCreateData SavedMetadata :=
      { title := jsOr dto.title (extractTitleFromNextjs nc)
        description := jsOr dto.description (extractDescriptionFromNextjs nc)
        prompt := dto.prompt
        htmlContent := stringifyNextjs nc
        cssContent := jsOr parsedResponse.tailwindConfig ""
        metadata :=
          { base := parsedResponse.metadata
            packageJson := jsOr parsedResponse.packageJson "\x7b\x7d"
            framework := "Next.js 14"
            styling := "Tailwind CSS + Custom CSS"
            complexity := jsOrS complexity.level "simple"
            generationMethod := if complexity.level = "complex" then "multi-step"
              else "single-step"
            tokensUsed := tokensUsed
            generationTime := elapsed }
        isPublic := dto.isPublic.getD false }
    match prismaCreate data with
    | Except.error e => Except.error e
    | Except.ok dbm =>
      match logGeneration ({ prompt := dto.prompt
                             response := stringifyGeneratedContent parsedResponse
                             duration := elapsed
                             tokens := tokensUsed }) with
      | Except.error e => Except.error e
      | Except.ok _ => Except.ok (websiteRecordResponse data dbm)

/-- Embeds `generateAdvancedFallbackWebsite` (lines 713-951). -/
def generateAdvancedFallbackWebsite
    (prismaCreate : WebsiteCreateData FallbackMetadata → Except String DbMeta)
    (logGeneration : LogEntry → Except String Unit)
    (elapsed : Nat) (dto : GenerateWebsiteDto) (lastErrorMsg : String)
    (complexity : Complexity) : Except String (GenResponse FallbackMetadata) :=
  let fallbackContent := fallbackNextjsContent dto complexity
  let fallbackMetadata := fallbackMetadataOf complexity lastErrorMsg
  let data : WebsiteCreateData FallbackMetadata :=
    { title := jsOr dto.title "Advanced Fallback Website"
      description := jsOr dto.description "Advanced fallback website generated due to AI failure"
      prompt := dto.prompt
      htmlContent := stringifyNextjs fallbackContent
      cssContent := "module.exports = \x7b content: [\"./src/**/*.\x7bjs,ts,jsx,tsx\x7d\"], theme: \x7b extend: \x7b\x7d \x7d, plugins: [] \x7d;"
      metadata := fallbackMetadata
      isPublic := dto.isPublic.getD false }
  match prismaCreate data with
  | Except.error e => Except.error e
  | Except.ok dbm =>
    match logGeneration ({ prompt := dto.prompt
                           response := jsonObj [("fallback", "true"), ("error", jsonStr lastErrorMsg)]
                           duration := elapsed
                           tokens := 0 }) with
    | Except.error e => Except.error e
    | Except.ok _ => Except.ok (websiteRecordResponse data dbm)

/-! ## The retry loop of `generateWebsite` (lines 61-103) -/
/-- Calls made to the persistence collaborator (`prisma.website.create`)
during one `generateWebsite` run: either a generated artifact (through
`saveGeneratedWebsite`) or the fallback synthesis path (whose create
payload is the fallback content built from the triggering error). -/
inductive PersistEv (A : Type) where
  | genArtifact : A → PersistEv A
  | fbInvoked : String → PersistEv A
deriving Repr, DecidableEq

/-- How one `generateWebsite` run terminates. -/
inductive Outcome (R₁ R₂ : Type) where
  | saved : R₁ → Outcome R₁ R₂
  | fellBack : R₂ → Outcome R₁ R₂
  | raised : String → Outcome R₁ R₂
  | loopExited : Option String → Outcome R₁ R₂
deriving Repr, DecidableEq

def Outcome.isLoopExited {R₁ R₂ : Type} : Outcome R₁ R₂ → Bool
  | .loopExited _ => true
  | _ => false

def Outcome.isFellBack {R₁ R₂ : Type} : Outcome R₁ R₂ → Bool
  | .fellBack _ => true
  | _ => false

def PersistEv.isFbInvoked {A : Type} : PersistEv A → Bool
  | .fbInvoked _ => true
  | _ => false

def maxAttempts : Nat := 3

/-- The `BadRequestException` message thrown on validated exhaustion
(line 84). -/
def validationFailureMessage (vr : ValidationResult) : String :=
  "Content validation failed: " ++ String.intercalate ", " vr.errors

/-- One iteration of the `for (attempt = 1; attempt <= maxAttempts;
attempt++)` loop body.  The `try` block covers the strategy call,
validation, the validation-failure `throw` of line 84 and the save;
`caught` is the `catch` block (lines 87-99): it records the error and, on
the final attempt, invokes fallback synthesis (whose own failure
propagates); otherwise the loop continues via `retry`. -/
def attemptBody {A R₁ R₂ : Type}
    (strat : Nat → Except String A)
    (validate : A → Except String ValidationResult)
    (save : A → Except String R₁)
    (fallback : String → Except String R₂)
    (attempt : Nat) (lastError : Option String)
    (retry : Option String → Outcome R₁ R₂ × List (PersistEv A)) :
    Outcome R₁ R₂ × List (PersistEv A) :=
  let caught : String → Outcome R₁ R₂ × List (PersistEv A) := fun e =>
    if attempt = maxAttempts then
      match fallback e with
      | .ok r => (.fellBack r, [.fbInvoked e])
      | .error e2 => (.raised e2, [.fbInvoked e])
    else retry (some e)
  match strat attempt with
  | .error e => caught e
  | .ok artifact =>
    match validate artifact with
    | .error e => caught e
    | .ok vr =>
      if vr.isValid then
        match save artifact with
        | .ok r => (.saved r, [.genArtifact artifact])
        | .error e =>
          let res := caught e
          (res.1, .genArtifact artifact :: res.2)
      else
        if attempt = maxAttempts then caught (validationFailureMessage vr)
        else retry lastError

/-- The attempt loop of `generateWebsite`.  The first argument is fuel,
maintained as `maxAttempts + 1 - attempt`, so the loop exits (reaching the
trailing `throw lastError` of line 102, the `loopExited` outcome) exactly
when `attempt` exceeds `maxAttempts`. -/
def attemptLoop {A R₁ R₂ : Type}
    (strat : Nat → Except String A)
    (validate : A → Except String ValidationResult)
    (save : A → Except String R₁)
    (fallback : String → Except String R₂) :
    Nat → Nat → Option String → Outcome R₁ R₂ × List (PersistEv A)
  | 0, _, lastError => (.loopExited lastError, [])
  | fuel + 1, attempt, lastError =>
    attemptBody strat validate save fallback attempt lastError
      (fun le2 => attemptLoop strat validate save fallback fuel (attempt + 1) le2)

/-- Embeds `generateWebsite` (lines 48-103): analyze the prompt, select the
strategy by tier, then run the retry loop from attempt 1 (the `tokensUsed`
counter is initialised to 0 and never updated). -/
def generateWebsite
    (singleGen multiGen : Nat → Except String GeneratedContent)
    (prismaCreateGen : WebsiteCreateData SavedMetadata → Except String DbMeta)
    (logGen : LogEntry → Except String Unit)
    (prismaCreateFb : WebsiteCreateData FallbackMetadata → Except String DbMeta)
    (logFb : LogEntry → Except String Unit)
    (elapsed : Nat) (dto : GenerateWebsiteDto) :
    Outcome (GenResponse SavedMetadata) (GenResponse FallbackMetadata) ×
      List (PersistEv GeneratedContent) :=
  let complexity := analyzePromptComplexity dto.prompt
  let strat : Nat → Except String GeneratedContent := fun attempt =>
    match selectStrategy complexity.level with
    | .simpleShot => singleGen attempt
    | .moderateShot => singleGen attempt
    | .multiStep => multiGen attempt
  attemptLoop strat (fun a => validateComplexWebsite a complexity)
    (fun a => saveGeneratedWebsite prismaCreateGen logGen elapsed dto complexity 0 a)
    (fun e => generateAdvancedFallbackWebsite prismaCreateFb logFb elapsed dto e complexity)
    maxAttempts 1 none

/-- A structurally complete artifact used to exercise the save path. -/
def c3WitnessArtifact : GeneratedContent :=
  { nextjsContent := some
      { pageTsx := some "export default function Page() \x7b return null; \x7d"
        layoutTsx := some "export default function Layout() \x7b return null; \x7d"
        globalsCss := some "@tailwind base;"
        components := some [("Header.tsx", "h")]
        indexTsx := none
        appTsx := none }
    packageJson := none
    tailwindConfig := none
    metadata := none }

/-! ### C1: validated exhaustion does NOT surface the error — it falls back

The `throw new BadRequestException(...)` of line 84 sits inside the `try`
block of the loop, so on the third attempt it is caught by the loop's own
`catch` (line 87), which at `attempt === maxAttempts` invokes
`generateAdvancedFallbackWebsite`.  The asymmetry the spec requires
(validated exhaustion surfaces an error and never falls back) is absent. -/
/-- An artifact that always fails validation (missing `globals.css`). -/
def c1Artifact : GeneratedContent :=
  { nextjsContent := some
      { pageTsx := some "export default function Page() \x7b return null; \x7d"
        layoutTsx := some "export default function Layout() \x7b return null; \x7d"
        globalsCss := none
        components := some [("Header.tsx", "h")]
        indexTsx := none
        appTsx := none }
    packageJson := none
    tailwindConfig := none
    metadata := none }

def c1Dto : GenerateWebsiteDto := ⟨"a landing page", none, none, none⟩

/-- The `generateWebsite` run in which the strategy returns `c1Artifact`
on every attempt and all collaborators behave. -/
def c1Run : Outcome (GenResponse SavedMetadata) (GenResponse FallbackMetadata) ×
    List (PersistEv GeneratedContent) :=
  generateWebsite (fun _ => Except.ok c1Artifact) (fun _ => Except.ok c1Artifact)
    (fun _ => Except.ok ⟨"site-1", 0, 0⟩) (fun _ => Except.ok ())
    (fun _ => Except.ok ⟨"site-1", 0, 0⟩) (fun _ => Except.ok ()) 0 c1Dto

/-! ## `cleanAIResponse` (ai.service.ts lines 572-579)

The chain `replace(/```json\n?/g, '') . replace(/```\n?/g, '')
. replace(/^[^{]*/, '') . replace(/[^}]*$/, '') . trim()`.  Each global
fence replacement is a single left-to-right scan: at every position either
the pattern matches and is consumed (with its optional trailing newline)
or one character is kept and scanning resumes one position later. -/
def stripJsonFence : List Char → List Char
  | [] => []
  | c :: d :: e :: x :: y :: z :: w :: '\n' :: rest =>
    if c = tick ∧ d = tick ∧ e = tick ∧ x = 'j' ∧ y = 's' ∧ z = 'o' ∧ w = 'n' then
      stripJsonFence rest
    else c :: stripJsonFence (d :: e :: x :: y :: z :: w :: '\n' :: rest)
  | c :: d :: e :: x :: y :: z :: w :: rest =>
    if c = tick ∧ d = tick ∧ e = tick ∧ x = 'j' ∧ y = 's' ∧ z = 'o' ∧ w = 'n' then
      stripJsonFence rest
    else c :: stripJsonFence (d :: e :: x :: y :: z :: w :: rest)
  | c :: cs => c :: stripJsonFence cs
  termination_by l => l.length

def stripFence : List Char → List Char
  | [] => []
  | c :: d :: e :: '\n' :: rest =>
    if c = tick ∧ d = tick ∧ e = tick then stripFence rest
    else c :: stripFence (d :: e :: '\n' :: rest)
  | c :: d :: e :: rest =>
    if c = tick ∧ d = tick ∧ e = tick then stripFence rest
    else c :: stripFence (d :: e :: rest)
  | c :: cs => c :: stripFence cs
  termination_by l => l.length

def dropToLBrace (l : List Char) : List Char := l.dropWhile (fun c => !(c = '{'))

def revDropWhile (p : Char → Bool) (l : List Char) : List Char :=
  (l.reverse.dropWhile p).reverse

def dropAfterRBrace (l : List Char) : List Char := revDropWhile (fun c => !(c = '}')) l

def isJsSpace (c : Char) : Bool :=
  c = ' ' || c = '\t' || c = '\n' || c = '\r' || c = '\x0b' || c = '\x0c' || c = '\xa0'

def trimChars (l : List Char) : List Char := revDropWhile isJsSpace (l.dropWhile isJsSpace)

def cleanList (l : List Char) : List Char :=
  trimChars (dropAfterRBrace (dropToLBrace (stripFence (stripJsonFence l))))

def cleanAIResponse (response : String) : String := ⟨cleanList response.data⟩

def NoT3 (l : List Char) : Prop := ¬ ([tick, tick, tick] <:+: l)

/-! # Theorems -/

/-! ### Basic facts about the analyzer -/
theorem mem_ite_singleton {t a : String} {c : Prop} [Decidable c]
    (h : t ∈ (if c then [a] else ([] : List String))) : t = a := by
  split at h
  · simpa using h
  · simp at h

/-- Each feature tag the analyzer emits lies in its fixed tag list. -/
theorem analyzer_features_subset (p : String) :
    ∀ t ∈ (analyzePromptComplexity p).features, t ∈ analyzerTags := by
  intro t ht
  simp only [analyzePromptComplexity, List.mem_append] at ht
  rcases ht with ((((((((((h | h) | h) | h) | h) | h) | h) | h) | h) | h) | h) | h <;>
    rw [mem_ite_singleton h] <;> simp [analyzerTags]

/-- The tier label is the threshold `ite` applied to the score. -/
theorem analyzer_level_eq (p : String) :
    (analyzePromptComplexity p).level =
      if (analyzePromptComplexity p).score ≥ 8 then "complex"
      else if (analyzePromptComplexity p).score ≥ 4 then "moderate"
      else "simple" := rfl

/-- C5: `analyzePromptComplexity` classifies with exact thresholds
(`score >= 8` is `complex`, `4 <= score < 8` is `moderate`, `score < 4` is
`simple`), and a prompt matching no keyword rule yields tier `simple`,
score 0 and an empty feature set. -/
theorem c5_tier_thresholds_exact (p : String) :
    ((analyzePromptComplexity p).score ≥ 8 → (analyzePromptComplexity p).level = "complex") ∧
    (4 ≤ (analyzePromptComplexity p).score → (analyzePromptComplexity p).score < 8 →
      (analyzePromptComplexity p).level = "moderate") ∧
    ((analyzePromptComplexity p).score < 4 → (analyzePromptComplexity p).level = "simple") ∧
    ((∀ kw ∈ ruleKeywords, jsIncludes (jsToLower p) kw = false) →
      analyzePromptComplexity p = ⟨"simple", [], 0⟩) := by
  refine ⟨?_, ?_, ?_, ?_⟩
  · intro h
    rw [analyzer_level_eq, if_pos h]
  · intro h4 h8
    rw [analyzer_level_eq, if_neg (by omega), if_pos h4]
  · intro h
    rw [analyzer_level_eq, if_neg (by omega), if_neg (by omega)]
  · intro H
    have h1 := H "e-commerce" (by simp [ruleKeywords])
    have h2 := H "shopping" (by simp [ruleKeywords])
    have h3 := H "cart" (by simp [ruleKeywords])
    have h4 := H "checkout" (by simp [ruleKeywords])
    have h5 := H "product" (by simp [ruleKeywords])
    have h6 := H "catalog" (by simp [ruleKeywords])
    have h7 := H "carousel" (by simp [ruleKeywords])
    have h8 := H "slider" (by simp [ruleKeywords])
    have h9 := H "modal" (by simp [ruleKeywords])
    have h10 := H "popup" (by simp [ruleKeywords])
    have h11 := H "animation" (by simp [ruleKeywords])
    have h12 := H "hover" (by simp [ruleKeywords])
    have h13 := H "dashboard" (by simp [ruleKeywords])
    have h14 := H "admin" (by simp [ruleKeywords])
    have h15 := H "multi-page" (by simp [ruleKeywords])
    have h16 := H "multiple pages" (by simp [ruleKeywords])
    have h17 := H "gradient" (by simp [ruleKeywords])
    have h18 := H "custom" (by simp [ruleKeywords])
    have h19 := H "responsive" (by simp [ruleKeywords])
    have h20 := H "mobile" (by simp [ruleKeywords])
    have h21 := H "login" (by simp [ruleKeywords])
    have h22 := H "auth" (by simp [ruleKeywords])
    have h23 := H "user" (by simp [ruleKeywords])
    have h24 := H "profile" (by simp [ruleKeywords])
    simp [analyzePromptComplexity, h1, h2, h3, h4, h5, h6, h7, h8, h9, h10,
      h11, h12, h13, h14, h15, h16, h17, h18, h19, h20, h21, h22, h23, h24]

/-- Witness for C5: concrete prompts exercising the no-keyword case and a
threshold case through the theorem itself. -/
theorem c5_tier_thresholds_exact_witness :
    analyzePromptComplexity "hello" = ⟨"simple", [], 0⟩ ∧
    (analyzePromptComplexity "Build a dashboard with login and cart pages for shopping").level
      = "complex" :=
  ⟨(c5_tier_thresholds_exact "hello").2.2.2 (by decide),
   (c5_tier_thresholds_exact _).1 (by decide)⟩

/-- C9: the analyzer can never emit the tags `dark`, `luxury` or `premium`,
so `determineTheme` composed with the analyzer's feature set is constantly
`"modern"`. -/
theorem c9_theme_constantly_modern (p : String) :
    determineTheme (analyzePromptComplexity p).features = "modern" := by
  have hsub := analyzer_features_subset p
  have hdark : "dark" ∉ (analyzePromptComplexity p).features := fun h => by
    simpa [analyzerTags] using hsub _ h
  have hlux : "luxury" ∉ (analyzePromptComplexity p).features := fun h => by
    simpa [analyzerTags] using hsub _ h
  have hprem : "premium" ∉ (analyzePromptComplexity p).features := fun h => by
    simpa [analyzerTags] using hsub _ h
  simp [determineTheme, hdark, hlux, hprem]

set_option maxRecDepth 4000 in
/-- C7: the e-commerce-dashboard prompt (in any casing) detects the four
expected features, scores at least 8, is classified `complex`, and the
`generateWebsite` dispatch therefore selects the multi-step strategy. -/
theorem c7_ecommerce_dashboard_prompt (s : String)
    (h : jsToLower s = "create an e-commerce dashboard with login and a product carousel") :
    "ecommerce" ∈ (analyzePromptComplexity s).features ∧
    "dashboard" ∈ (analyzePromptComplexity s).features ∧
    "authentication" ∈ (analyzePromptComplexity s).features ∧
    "carousel" ∈ (analyzePromptComplexity s).features ∧
    (analyzePromptComplexity s).score ≥ 8 ∧
    (analyzePromptComplexity s).level = "complex" ∧
    selectStrategy (analyzePromptComplexity s).level = .multiStep := by
  simp only [analyzePromptComplexity, selectStrategy, h]
  decide

/-- Witness for C7: the original casing of the end-to-end prompt. -/
theorem c7_ecommerce_dashboard_prompt_witness :
    "ecommerce" ∈ (analyzePromptComplexity
        "Create an e-commerce dashboard with login and a product carousel").features ∧
    "dashboard" ∈ (analyzePromptComplexity
        "Create an e-commerce dashboard with login and a product carousel").features ∧
    "authentication" ∈ (analyzePromptComplexity
        "Create an e-commerce dashboard with login and a product carousel").features ∧
    "carousel" ∈ (analyzePromptComplexity
        "Create an e-commerce dashboard with login and a product carousel").features ∧
    (analyzePromptComplexity
        "Create an e-commerce dashboard with login and a product carousel").score ≥ 8 ∧
    (analyzePromptComplexity
        "Create an e-commerce dashboard with login and a product carousel").level = "complex" ∧
    selectStrategy (analyzePromptComplexity
        "Create an e-commerce dashboard with login and a product carousel").level = .multiStep :=
  c7_ecommerce_dashboard_prompt _ (by decide)

/-- The error `"Missing globals.css"` is among the rule-1 errors whenever the content
map lacks the `globals.css` entry. -/
theorem missing_css_mem_basic_errors (nc : NextjsContent) (pj tc md)
    (h : nc.globalsCss = none) :
    "Missing globals.css" ∈
      (validateBasicStructure ⟨some nc, pj, tc, md⟩).errors := by
  simp only [validateBasicStructure, h, isFalsyStr, List.mem_append]
  tauto

/-- C6: for every artifact whose content map lacks a `globals.css` entry,
`validateComplexWebsite` returns a result (no crash), with `isValid=false`
and an error mentioning the missing styles, regardless of all its other
fields. -/
theorem c6_missing_global_styles_invalid (nc : NextjsContent) (pj tc : Option String)
    (md2 : Option (List (String × String))) (cplx : Complexity)
    (h : nc.globalsCss = none) :
    ∃ vr, validateComplexWebsite ⟨some nc, pj, tc, md2⟩ cplx = Except.ok vr ∧
      vr.isValid = false ∧ "Missing globals.css" ∈ vr.errors := by
  refine ⟨_, rfl, ?_, ?_⟩
  · have hmem : "Missing globals.css" ∈
        (validateBasicStructure ⟨some nc, pj, tc, md2⟩).errors :=
      missing_css_mem_basic_errors nc pj tc md2 h
    simp only [validateComplexWebsite]
    rw [List.isEmpty_eq_false_iff_exists_mem]
    exact ⟨"Missing globals.css", by simp [List.mem_append]; tauto⟩
  · have hmem : "Missing globals.css" ∈
        (validateBasicStructure ⟨some nc, pj, tc, md2⟩).errors :=
      missing_css_mem_basic_errors nc pj tc md2 h
    simp only [validateComplexWebsite, List.mem_append]
    tauto

/-- Witness for C6: a concrete artifact lacking global styles. -/
theorem c6_missing_global_styles_invalid_witness :
    ∃ vr, validateComplexWebsite
        ⟨some ⟨some "export default function Page() \x7b return null; \x7d",
               some "layout", none, some [("Header.tsx", "h")], none, none⟩,
          none, none, none⟩
        ⟨"simple", [], 0⟩ = Except.ok vr ∧
      vr.isValid = false ∧ "Missing globals.css" ∈ vr.errors :=
  c6_missing_global_styles_invalid _ none none none ⟨"simple", [], 0⟩ rfl

/-! ### C10: the trailing `throw lastError` is unreachable -/
/-- A loop-body iteration never reaches the loop-exit outcome itself: every
branch either terminates the run (saved / fellBack / raised) or defers to
`retry`, and on the final attempt `retry` is never consulted. -/
theorem attemptBody_no_exit {A R₁ R₂ : Type}
    (strat : Nat → Except String A) (validate : A → Except String ValidationResult)
    (save : A → Except String R₁) (fallback : String → Except String R₂)
    (attempt : Nat) (le : Option String)
    (retry : Option String → Outcome R₁ R₂ × List (PersistEv A))
    (hretry : ∀ le2, attempt ≠ maxAttempts → (retry le2).1.isLoopExited = false) :
    (attemptBody strat validate save fallback attempt le retry).1.isLoopExited = false := by
  by_cases hm : attempt = maxAttempts
  · subst hm
    simp only [attemptBody, reduceIte]
    split
    · split <;> rfl
    · split
      · split <;> rfl
      · split
        · split
          · rfl
          · split <;> rfl
        · split <;> rfl
  · simp only [attemptBody, if_neg hm]
    split
    · exact hretry _ hm
    · split
      · exact hretry _ hm
      · split
        · split
          · rfl
          · exact hretry _ hm
        · exact hretry _ hm

/-- With coherent fuel (`attempt + k = maxAttempts`, fuel `k + 1`), the
loop never completes normally. -/
theorem attemptLoop_no_exit {A R₁ R₂ : Type}
    (strat : Nat → Except String A) (validate : A → Except String ValidationResult)
    (save : A → Except String R₁) (fallback : String → Except String R₂) :
    ∀ (k attempt : Nat) (le : Option String), attempt + k = maxAttempts →
      (attemptLoop strat validate save fallback (k + 1) attempt le).1.isLoopExited = false := by
  intro k
  induction k with
  | zero =>
    intro attempt le h
    simp only [attemptLoop]
    exact attemptBody_no_exit _ _ _ _ _ _ _ (fun le2 hne => absurd (by omega) hne)
  | succ k ih =>
    intro attempt le h
    simp only [attemptLoop]
    exact attemptBody_no_exit _ _ _ _ _ _ _ (fun le2 _ => ih (attempt + 1) le2 (by omega))

/-- C10: the `throw lastError` statement after the attempt loop is
unreachable: for every behaviour of the strategy, validator, persistence
and fallback collaborators, the run from attempt 1 ends in a saved
artifact, a fallback artifact, or a propagated exception — never in the
loop-exit outcome.  Stated both for the raw loop (arbitrary collaborators)
and for the assembled `generateWebsite`. -/
theorem c10_throw_lastError_unreachable :
    (∀ (A R₁ R₂ : Type) (strat : Nat → Except String A)
      (validate : A → Except String ValidationResult)
      (save : A → Except String R₁) (fallback : String → Except String R₂)
      (lastError : Option String),
      (attemptLoop strat validate save fallback maxAttempts 1 lastError).1.isLoopExited
        = false) ∧
    (∀ (singleGen multiGen : Nat → Except String GeneratedContent)
      (prismaCreateGen : WebsiteCreateData SavedMetadata → Except String DbMeta)
      (logGen : LogEntry → Except String Unit)
      (prismaCreateFb : WebsiteCreateData FallbackMetadata → Except String DbMeta)
      (logFb : LogEntry → Except String Unit) (elapsed : Nat) (dto : GenerateWebsiteDto),
      (generateWebsite singleGen multiGen prismaCreateGen logGen prismaCreateFb logFb
          elapsed dto).1.isLoopExited = false) := by
  constructor
  · intro A R₁ R₂ strat validate save fallback lastError
    exact attemptLoop_no_exit strat validate save fallback 2 1 lastError rfl
  · intro singleGen multiGen pcG lg pcF lf elapsed dto
    exact attemptLoop_no_exit _ _ _ _ 2 1 none rfl

/-! ### C3: only validated or fallback artifacts reach persistence -/
/-- Any artifact handed to `prisma.website.create` through
`saveGeneratedWebsite` during the loop passed validation on its attempt. -/
theorem genArtifact_mem_implies_valid {A R₁ R₂ : Type}
    (strat : Nat → Except String A) (validate : A → Except String ValidationResult)
    (save : A → Except String R₁) (fallback : String → Except String R₂) :
    ∀ (fuel attempt : Nat) (lastError : Option String) (a : A),
      PersistEv.genArtifact a ∈
          (attemptLoop strat validate save fallback fuel attempt lastError).2 →
      ∃ vr, validate a = Except.ok vr ∧ vr.isValid = true := by
  intro fuel
  induction fuel with
  | zero =>
    intro attempt le a h
    simp [attemptLoop] at h
  | succ fuel ih =>
    intro attempt le a h
    simp only [attemptLoop, attemptBody] at h
    split at h
    case h_1 e heq =>
      split at h
      · split at h <;> simp at h
      · exact ih _ _ _ h
    case h_2 artifact heq =>
      split at h
      case h_1 e heq2 =>
        split at h
        · split at h <;> simp at h
        · exact ih _ _ _ h
      case h_2 vr heq2 =>
        split at h
        case isTrue hv =>
          split at h
          case h_1 r heq3 =>
            simp only [List.mem_singleton] at h
            cases h
            exact ⟨vr, heq2, hv⟩
          case h_2 e heq3 =>
            simp only [List.mem_cons] at h
            rcases h with h | h
            · cases h
              exact ⟨vr, heq2, hv⟩
            · split at h
              · split at h <;> simp at h
              · exact ih _ _ _ h
        case isFalse hv =>
          split at h
          · split at h <;> simp at h
          · exact ih _ _ _ h

/-- C3: in every `generateWebsite` run, an artifact is handed to the
persistence collaborator only if the validator returned `isValid = true`
for it on that attempt, or the create call belongs to the fallback
synthesis path (the only other persistence event the loop can emit). -/
theorem c3_persistence_only_validated_or_fallback
    (singleGen multiGen : Nat → Except String GeneratedContent)
    (prismaCreateGen : WebsiteCreateData SavedMetadata → Except String DbMeta)
    (logGen : LogEntry → Except String Unit)
    (prismaCreateFb : WebsiteCreateData FallbackMetadata → Except String DbMeta)
    (logFb : LogEntry → Except String Unit) (elapsed : Nat) (dto : GenerateWebsiteDto)
    (a : GeneratedContent)
    (h : PersistEv.genArtifact a ∈
      (generateWebsite singleGen multiGen prismaCreateGen logGen prismaCreateFb logFb
        elapsed dto).2) :
    ∃ vr, validateComplexWebsite a (analyzePromptComplexity dto.prompt) = Except.ok vr ∧
      vr.isValid = true :=
  genArtifact_mem_implies_valid _ _ _ _ maxAttempts 1 none a h

/-- Witness for C3: a run that persists a generated artifact, and the
validity fact obtained through the theorem. -/
theorem c3_persistence_only_validated_or_fallback_witness :
    (PersistEv.genArtifact c3WitnessArtifact ∈
      (generateWebsite (fun _ => Except.ok c3WitnessArtifact)
        (fun _ => Except.ok c3WitnessArtifact)
        (fun _ => Except.ok ⟨"site-1", 0, 0⟩) (fun _ => Except.ok ())
        (fun _ => Except.ok ⟨"site-1", 0, 0⟩) (fun _ => Except.ok ())
        0 ⟨"hello", none, none, none⟩).2) ∧
    (∃ vr, validateComplexWebsite c3WitnessArtifact (analyzePromptComplexity "hello")
        = Except.ok vr ∧ vr.isValid = true) :=
  ⟨by decide,
   c3_persistence_only_validated_or_fallback
     (fun _ => Except.ok c3WitnessArtifact) (fun _ => Except.ok c3WitnessArtifact)
     (fun _ => Except.ok ⟨"site-1", 0, 0⟩) (fun _ => Except.ok ())
     (fun _ => Except.ok ⟨"site-1", 0, 0⟩) (fun _ => Except.ok ())
     0 ⟨"hello", none, none, none⟩ c3WitnessArtifact (by decide)⟩

/-- C1 (code-bug evidence): the validator rejects `c1Artifact` (so every
attempt is a validation failure), yet the run returns a fallback artifact
and the fallback synthesis path IS invoked — the validation-failure error
is not surfaced to the caller. -/
theorem c1_validated_exhaustion_falls_back :
    (∃ vr, validateComplexWebsite c1Artifact (analyzePromptComplexity c1Dto.prompt)
        = Except.ok vr ∧ vr.isValid = false) ∧
    c1Run.1.isFellBack = true ∧
    c1Run.2.any PersistEv.isFbInvoked = true := by
  refine ⟨⟨_, rfl, by decide⟩, by decide, by decide⟩

/-! ### C2: exception exhaustion falls back with the last error recorded -/
/-- C2: if the strategy throws on every attempt, the run invokes fallback
synthesis after the third failure (with the third error as the recorded
last error) and returns the fallback artifact, whose metadata carries
`isFallback: true` and a `fallbackReason` equal to the last error's
message. -/
theorem c2_exception_exhaustion_falls_back
    (dto : GenerateWebsiteDto) (msgs : Nat → String)
    (prismaCreateGen : WebsiteCreateData SavedMetadata → Except String DbMeta)
    (logGen : LogEntry → Except String Unit)
    (dbm : WebsiteCreateData FallbackMetadata → DbMeta) (elapsed : Nat)
    (hmsg : msgs 3 ≠ "") :
    ∃ resp,
      generateWebsite (fun attempt => Except.error (msgs attempt))
          (fun attempt => Except.error (msgs attempt))
          prismaCreateGen logGen (fun d => Except.ok (dbm d)) (fun _ => Except.ok ())
          elapsed dto
        = (Outcome.fellBack resp, [PersistEv.fbInvoked (msgs 3)]) ∧
      resp.metadata.isFallback = true ∧
      resp.metadata.fallbackReason = msgs 3 := by
  simp only [generateWebsite]
  cases hsel : selectStrategy (analyzePromptComplexity dto.prompt).level <;>
    simp only [hsel] <;>
    exact ⟨_, rfl, rfl, by
      show jsOrS (msgs 3) "AI generation failed" = msgs 3
      simp [jsOrS, hmsg]⟩

/-- Witness for C2: concrete always-throwing strategy. -/
theorem c2_exception_exhaustion_falls_back_witness :
    ∃ resp,
      generateWebsite (fun attempt => Except.error ((fun _ => "boom") attempt))
          (fun attempt => Except.error ((fun _ => "boom") attempt))
          (fun _ => Except.ok ⟨"site-1", 0, 0⟩) (fun _ => Except.ok ())
          (fun d => Except.ok ((fun _ => (⟨"site-9", 5, 6⟩ : DbMeta)) d))
          (fun _ => Except.ok ())
          7 ⟨"hello", none, none, none⟩
        = (Outcome.fellBack resp, [PersistEv.fbInvoked ((fun _ => "boom") 3)]) ∧
      resp.metadata.isFallback = true ∧
      resp.metadata.fallbackReason = (fun _ => "boom") 3 :=
  c2_exception_exhaustion_falls_back ⟨"hello", none, none, none⟩ (fun _ => "boom")
    (fun _ => Except.ok ⟨"site-1", 0, 0⟩) (fun _ => Except.ok ())
    (fun _ => ⟨"site-9", 5, 6⟩) 7 (by decide)

/-! ### C4: structural validity of the fallback content -/
theorem str_append_ne_empty_right (a b : String) (h : b ≠ "") : a ++ b ≠ "" := by
  intro hc
  apply h
  have hd : (a ++ b).data = ([] : List Char) := by rw [hc]
  rw [String.data_append] at hd
  rcases List.append_eq_nil.mp hd with ⟨-, h2⟩
  cases b
  simp_all

theorem fallbackPageTsx_ne_empty (dto : GenerateWebsiteDto) (complexity : Complexity) :
    fallbackPageTsx dto complexity ≠ "" :=
  str_append_ne_empty_right _ _ (by decide)

theorem fallbackLayoutTsx_ne_empty (dto : GenerateWebsiteDto) :
    fallbackLayoutTsx dto ≠ "" :=
  str_append_ne_empty_right _ _ (by decide)

theorem fallbackGlobalsCss_ne_empty : fallbackGlobalsCss ≠ "" := by decide

/-- C4 counterexample: the raw fallback content object, as built by
`generateAdvancedFallbackWebsite`, has no `nextjsContent` wrapper, so
running `validateBasicStructure` on it yields `["Missing nextjsContent"]`
— not the empty error list the claim asserts. -/
theorem c4_counterexample_raw_fallback_fails_rule1 :
    (validateBasicStructure (fallbackContentAsArtifact
        (fallbackNextjsContent ⟨"a shop", none, none, none⟩ ⟨"simple", [], 0⟩))).errors
      = ["Missing nextjsContent"] ∧
    (validateBasicStructure (fallbackContentAsArtifact
        (fallbackNextjsContent ⟨"a shop", none, none, none⟩ ⟨"simple", [], 0⟩))).errors
      ≠ ([] : List String) := by
  constructor
  · rfl
  · decide

/-- C4 (amended): the fallback content does contain a non-empty primary
page, layout, global styles and a two-entry components map, so an artifact
wrapping it as `nextjsContent` passes `validateBasicStructure` with an
empty error list; but the raw fallback artifact itself lacks the
`nextjsContent` wrapper, so running `validateBasicStructure` directly on
it yields `["Missing nextjsContent"]`. -/
theorem c4_fallback_rule1_structure (dto : GenerateWebsiteDto) (complexity : Complexity) :
    ((validateBasicStructure
        ⟨some (fallbackNextjsContent dto complexity), none, none, none⟩).errors = [] ∧
      (validateBasicStructure
        ⟨some (fallbackNextjsContent dto complexity), none, none, none⟩).isValid = true) ∧
    (validateBasicStructure (fallbackContentAsArtifact
        (fallbackNextjsContent dto complexity))).errors = ["Missing nextjsContent"] := by
  have hpage : isFalsyStr (some (fallbackPageTsx dto complexity)) = false := by
    simp [isFalsyStr, fallbackPageTsx_ne_empty dto complexity]
  have hlayout : isFalsyStr (some (fallbackLayoutTsx dto)) = false := by
    simp [isFalsyStr, fallbackLayoutTsx_ne_empty dto]
  have hcss : isFalsyStr (some fallbackGlobalsCss) = false := by
    simp [isFalsyStr, fallbackGlobalsCss_ne_empty]
  refine ⟨⟨?_, ?_⟩, rfl⟩
  · simp [validateBasicStructure, fallbackNextjsContent, componentsMissing,
      hpage, hlayout, hcss]
  · simp [validateBasicStructure, fallbackNextjsContent, componentsMissing,
      hpage, hlayout, hcss]

theorem sf_nil : stripFence [] = [] := by simp [stripFence]

theorem sf_cons_ne {c : Char} (cs : List Char) (h : c ≠ tick) :
    stripFence (c :: cs) = c :: stripFence cs := by
  rcases cs with _ | ⟨d, _ | ⟨e, _ | ⟨f, rest⟩⟩⟩
  · simp [stripFence, h]
  · simp [stripFence, h]
  · simp [stripFence, h]
  · by_cases hf : f = '\n'
    · subst hf
      simp [stripFence, h]
    · simp [stripFence, h, hf]

theorem sf_tick_ne {d : Char} (cs : List Char) (h : d ≠ tick) :
    stripFence (tick :: d :: cs) = tick :: stripFence (d :: cs) := by
  have hcond : ¬ (tick = tick ∧ d = tick ∧ True) := by tauto
  rcases cs with _ | ⟨e, _ | ⟨f, rest⟩⟩
  · simp [stripFence]
  · simp [stripFence, h]
  · by_cases hf : f = '\n'
    · subst hf
      simp [stripFence, h]
    · simp [stripFence, h, hf]

theorem sf_tick_tick_ne {e : Char} (cs : List Char) (h : e ≠ tick) :
    stripFence (tick :: tick :: e :: cs) = tick :: stripFence (tick :: e :: cs) := by
  rcases cs with _ | ⟨f, rest⟩
  · simp [stripFence, h]
  · by_cases hf : f = '\n'
    · subst hf
      simp [stripFence, h]
    · simp [stripFence, h, hf]

theorem sf_three_nil : stripFence [tick, tick, tick] = [] := by simp [stripFence]

theorem sf_three_nl (rest : List Char) :
    stripFence (tick :: tick :: tick :: '\n' :: rest) = stripFence rest := by
  simp [stripFence]

theorem sf_three_ne {f : Char} (rest : List Char) (h : f ≠ '\n') :
    stripFence (tick :: tick :: tick :: f :: rest) = stripFence (f :: rest) := by
  simp [stripFence, h]

theorem noT3_of_short {l : List Char} (h : l.length ≤ 2) : NoT3 l := by
  intro hinf
  have := hinf.sublist.length_le
  simp at this
  omega

theorem noT3_tail {c : Char} {l : List Char} (h : NoT3 (c :: l)) : NoT3 l := fun hinf =>
  h (List.infix_cons_iff.mpr (Or.inr hinf))

theorem noT3_cons {c : Char} {l : List Char} (hc : c ≠ tick) (h : NoT3 l) :
    NoT3 (c :: l) := by
  intro hinf
  rcases List.infix_cons_iff.mp hinf with hpre | hinf2
  · exact hc (List.cons_prefix_cons.mp hpre).1.symm
  · exact h hinf2

theorem noT3_tick_cons {d : Char} {l : List Char} (hd : d ≠ tick) (h : NoT3 (d :: l)) :
    NoT3 (tick :: d :: l) := by
  intro hinf
  rcases List.infix_cons_iff.mp hinf with hpre | hinf2
  · obtain ⟨-, hpre2⟩ := List.cons_prefix_cons.mp hpre
    exact hd (List.cons_prefix_cons.mp hpre2).1.symm
  · exact h hinf2

theorem noT3_tick_tick_cons {e : Char} {l : List Char} (he : e ≠ tick) (h : NoT3 (e :: l)) :
    NoT3 (tick :: tick :: e :: l) := by
  intro hinf
  rcases List.infix_cons_iff.mp hinf with hpre | hinf2
  · obtain ⟨-, hpre2⟩ := List.cons_prefix_cons.mp hpre
    obtain ⟨-, hpre3⟩ := List.cons_prefix_cons.mp hpre2
    exact he (List.cons_prefix_cons.mp hpre3).1.symm
  · rcases List.infix_cons_iff.mp hinf2 with hpre | hinf3
    · obtain ⟨-, hpre2⟩ := List.cons_prefix_cons.mp hpre
      exact he (List.cons_prefix_cons.mp hpre2).1.symm
    · exact h hinf3

/-- Output of the second fence pass never contains three consecutive
backticks. -/
theorem stripFence_noT3 : ∀ l : List Char, NoT3 (stripFence l) := by
  have aux : ∀ n l, List.length l ≤ n → NoT3 (stripFence l) := by
    intro n
    induction n with
    | zero =>
      intro l hl
      have hnil : l = [] := List.eq_nil_of_length_eq_zero (by omega)
      subst hnil
      rw [sf_nil]
      exact noT3_of_short (by simp)
    | succ n ih =>
      intro l hl
      rcases l with _ | ⟨c, cs⟩
      · rw [sf_nil]
        exact noT3_of_short (by simp)
      by_cases hc : c = tick
      case neg =>
        rw [sf_cons_ne cs hc]
        exact noT3_cons hc (ih cs (by simp at hl; omega))
      case pos =>
      subst hc
      rcases cs with _ | ⟨d, ds⟩
      · have h1 : stripFence [tick] = [tick] := by simp [stripFence]
        rw [h1]
        exact noT3_of_short (by simp)
      by_cases hd : d = tick
      case neg =>
        rw [sf_tick_ne ds hd, sf_cons_ne ds hd]
        exact noT3_tick_cons hd (noT3_cons hd (ih ds (by simp at hl; omega)))
      case pos =>
      subst hd
      rcases ds with _ | ⟨e, es⟩
      · have h1 : stripFence [tick, tick] = [tick, tick] := by simp [stripFence]
        rw [h1]
        exact noT3_of_short (by simp)
      by_cases he : e = tick
      case neg =>
        rw [sf_tick_tick_ne es he, sf_tick_ne es he, sf_cons_ne es he]
        exact noT3_tick_tick_cons he (noT3_cons he (ih es (by simp at hl; omega)))
      case pos =>
      subst he
      rcases es with _ | ⟨f, fs⟩
      · rw [sf_three_nil]
        exact noT3_of_short (by simp)
      by_cases hf : f = '\n'
      · subst hf
        rw [sf_three_nl]
        exact ih fs (by simp at hl; omega)
      · rw [sf_three_ne fs hf]
        exact ih (f :: fs) (by simp at hl ⊢; omega)
  exact fun l => aux l.length l le_rfl

theorem sj_cons_of_noT3 (c : Char) (cs : List Char) (h : NoT3 (c :: cs)) :
    stripJsonFence (c :: cs) = c :: stripJsonFence cs := by
  rcases cs with _ | ⟨d, _ | ⟨e, _ | ⟨x, _ | ⟨y, _ | ⟨z, _ | ⟨w, rest⟩⟩⟩⟩⟩⟩
  · simp [stripJsonFence]
  · simp [stripJsonFence]
  · simp [stripJsonFence]
  · simp [stripJsonFence]
  · simp [stripJsonFence]
  · simp [stripJsonFence]
  · have hcond :
        ¬ (c = tick ∧ d = tick ∧ e = tick ∧ x = 'j' ∧ y = 's' ∧ z = 'o' ∧ w = 'n') := by
      rintro ⟨rfl, rfl, rfl, -⟩
      exact h ⟨[], _, rfl⟩
    rcases rest with _ | ⟨f, rest2⟩
    · simp [stripJsonFence, hcond]
    · by_cases hf : f = '\n'
      · subst hf
        simp [stripJsonFence, hcond]
      · simp [stripJsonFence, hcond, hf]

theorem stripJsonFence_of_noT3 : ∀ l : List Char, NoT3 l → stripJsonFence l = l := by
  intro l
  induction l with
  | nil => intro _; simp [stripJsonFence]
  | cons c cs ih =>
    intro h
    rw [sj_cons_of_noT3 c cs h, ih (noT3_tail h)]

theorem sf_cons_of_noT3 (c : Char) (cs : List Char) (h : NoT3 (c :: cs)) :
    stripFence (c :: cs) = c :: stripFence cs := by
  rcases cs with _ | ⟨d, _ | ⟨e, rest⟩⟩
  · simp [stripFence]
  · simp [stripFence]
  · have hcond : ¬ (c = tick ∧ d = tick ∧ e = tick) := by
      rintro ⟨rfl, rfl, rfl⟩
      exact h ⟨[], _, rfl⟩
    rcases rest with _ | ⟨f, rest2⟩
    · simp [stripFence, hcond]
    · by_cases hf : f = '\n'
      · subst hf
        simp [stripFence, hcond]
      · simp [stripFence, hcond, hf]

theorem stripFence_of_noT3 : ∀ l : List Char, NoT3 l → stripFence l = l := by
  intro l
  induction l with
  | nil => intro _; simp [stripFence]
  | cons c cs ih =>
    intro h
    rw [sf_cons_of_noT3 c cs h, ih (noT3_tail h)]

theorem noT3_of_infix {l₁ l₂ : List Char} (h : l₁ <:+: l₂) (H : NoT3 l₂) : NoT3 l₁ :=
  fun h3 => H (h3.trans h)

/-- The function `dropWhile` either empties the list or exposes a head failing `p`. -/
theorem dropWhile_head_not (p : Char → Bool) :
    ∀ l : List Char, l.dropWhile p = [] ∨
      ∃ c, (l.dropWhile p).head? = some c ∧ p c = false := by
  intro l
  induction l with
  | nil => exact Or.inl rfl
  | cons c cs ih =>
    by_cases hc : p c = true
    · simpa [List.dropWhile_cons, hc] using ih
    · right
      refine ⟨c, ?_, by simpa using hc⟩
      simp [List.dropWhile_cons, hc]

theorem dropWhile_id_of_head {p : Char → Bool} {c : Char} {cs : List Char}
    (h : p c = false) : (c :: cs).dropWhile p = c :: cs := by
  simp [List.dropWhile_cons, h]

theorem revDropWhile_isPrefixOf_self (p : Char → Bool) (l : List Char) :
    revDropWhile p l <+: l := by
  obtain ⟨s, hs⟩ := List.dropWhile_suffix (l := l.reverse) p
  refine ⟨s.reverse, ?_⟩
  have h2 := congrArg List.reverse hs
  simpa [revDropWhile] using h2

theorem revDropWhile_last (p : Char → Bool) (l : List Char) :
    revDropWhile p l = [] ∨
      ∃ c, (revDropWhile p l).getLast? = some c ∧ p c = false := by
  rcases dropWhile_head_not p l.reverse with h | ⟨c, hc, hp⟩
  · left
    simp [revDropWhile, h]
  · right
    exact ⟨c, by simpa [revDropWhile, List.getLast?_reverse] using hc, hp⟩

theorem revDropWhile_id {p : Char → Bool} {l : List Char}
    (h : l = [] ∨ ∃ c, l.getLast? = some c ∧ p c = false) : revDropWhile p l = l := by
  rcases h with rfl | ⟨c, hc, hp⟩
  · simp [revDropWhile]
  · rcases hrev : l.reverse with _ | ⟨a, r⟩
    · have : l = [] := by simpa using congrArg List.reverse hrev
      simp [this, revDropWhile]
    · have ha : a = c := by
        have h1 : l.reverse.head? = l.getLast? := List.head?_reverse l
        rw [hrev, hc] at h1
        simpa using h1
      subst ha
      have : l.reverse.dropWhile p = l.reverse := by
        rw [hrev]
        exact dropWhile_id_of_head hp
      simp [revDropWhile, this]

theorem prefix_head? {l₁ l₂ : List Char} (h : l₁ <+: l₂) (hne : l₁ ≠ []) :
    l₁.head? = l₂.head? := by
  obtain ⟨t, rfl⟩ := h
  cases l₁
  · exact absurd rfl hne
  · simp

theorem eq_cons_of_headQ {l : List Char} {c : Char} (h : l.head? = some c) :
    ∃ cs, l = c :: cs := by
  rcases l with _ | ⟨a, as⟩
  · simp at h
  · simp at h
    exact ⟨as, by rw [h]⟩

theorem dropToLBrace_shape (l : List Char) :
    dropToLBrace l = [] ∨ ∃ cs, dropToLBrace l = '{' :: cs := by
  rcases dropWhile_head_not (fun c => !(c = '{')) l with h | ⟨c, hc, hp⟩
  · exact Or.inl h
  · right
    have hc2 : c = '{' := by simpa using hp
    subst hc2
    have hc' : (dropToLBrace l).head? = some '{' := hc
    exact eq_cons_of_headQ hc'

theorem dropToLBrace_id {l : List Char} (h : l = [] ∨ ∃ cs, l = '{' :: cs) :
    dropToLBrace l = l := by
  rcases h with rfl | ⟨cs, rfl⟩
  · rfl
  · simp [dropToLBrace, List.dropWhile_cons]

/-- Property A: `cleanList` yields the empty list or a list that starts
with a left brace and ends with a right brace. -/
theorem cleanList_shape (l : List Char) :
    cleanList l = [] ∨
      ((cleanList l).head? = some '{' ∧ (cleanList l).getLast? = some '}') := by
  have hclean : cleanList l =
      trimChars (dropAfterRBrace (dropToLBrace (stripFence (stripJsonFence l)))) := rfl
  rcases dropToLBrace_shape (stripFence (stripJsonFence l)) with hu | ⟨ucs, hu⟩
  · left
    rw [hclean, hu]
    rfl
  · rcases revDropWhile_last (fun c => !(c = '}'))
        (dropToLBrace (stripFence (stripJsonFence l))) with hv | ⟨c, hc, hp⟩
    · left
      have hv' : dropAfterRBrace (dropToLBrace (stripFence (stripJsonFence l))) = [] := hv
      rw [hclean, hv']
      rfl
    · have hc2 : c = '}' := by simpa using hp
      subst hc2
      have hc' : (dropAfterRBrace (dropToLBrace (stripFence (stripJsonFence l)))).getLast?
          = some '}' := hc
      have hvne : dropAfterRBrace (dropToLBrace (stripFence (stripJsonFence l))) ≠ [] := by
        intro hnil
        rw [hnil] at hc'
        simp at hc'
      have hvpre : dropAfterRBrace (dropToLBrace (stripFence (stripJsonFence l))) <+:
          dropToLBrace (stripFence (stripJsonFence l)) := revDropWhile_isPrefixOf_self _ _
      have hvhead : (dropAfterRBrace (dropToLBrace (stripFence (stripJsonFence l)))).head?
          = some '{' := by
        rw [prefix_head? hvpre hvne, hu]
        rfl
      obtain ⟨vs, hvs⟩ := eq_cons_of_headQ hvhead
      have htrim : trimChars (dropAfterRBrace (dropToLBrace (stripFence (stripJsonFence l))))
          = dropAfterRBrace (dropToLBrace (stripFence (stripJsonFence l))) := by
        show revDropWhile isJsSpace
          ((dropAfterRBrace (dropToLBrace (stripFence (stripJsonFence l)))).dropWhile
            isJsSpace) = _
        rw [hvs, dropWhile_id_of_head (by decide), ← hvs]
        exact revDropWhile_id (Or.inr ⟨'}', hc', by decide⟩)
      right
      rw [hclean, htrim]
      exact ⟨hvhead, hc'⟩

theorem cleanList_noT3 (l : List Char) : NoT3 (cleanList l) := by
  have h1 : NoT3 (stripFence (stripJsonFence l)) := stripFence_noT3 _
  have h2 : NoT3 (dropToLBrace (stripFence (stripJsonFence l))) :=
    noT3_of_infix (List.dropWhile_suffix _).isInfix h1
  have h3 : NoT3 (dropAfterRBrace (dropToLBrace (stripFence (stripJsonFence l)))) :=
    noT3_of_infix (revDropWhile_isPrefixOf_self _ _).isInfix h2
  have h4 : NoT3 ((dropAfterRBrace (dropToLBrace (stripFence (stripJsonFence l)))).dropWhile
      isJsSpace) := noT3_of_infix (List.dropWhile_suffix _).isInfix h3
  exact noT3_of_infix (revDropWhile_isPrefixOf_self _ _).isInfix h4

theorem cleanList_idem (l : List Char) : cleanList (cleanList l) = cleanList l := by
  have hno := cleanList_noT3 l
  rcases cleanList_shape l with hnil | ⟨hhead, hlast⟩
  · rw [hnil]
    show trimChars (dropAfterRBrace (dropToLBrace (stripFence (stripJsonFence [])))) = []
    simp [stripJsonFence, stripFence]
    rfl
  · obtain ⟨cs, hcs⟩ := eq_cons_of_headQ hhead
    have h1 : stripJsonFence (cleanList l) = cleanList l := stripJsonFence_of_noT3 _ hno
    have h2 : stripFence (cleanList l) = cleanList l := stripFence_of_noT3 _ hno
    have h3 : dropToLBrace (cleanList l) = cleanList l := dropToLBrace_id (Or.inr ⟨cs, hcs⟩)
    have h4 : dropAfterRBrace (cleanList l) = cleanList l :=
      revDropWhile_id (Or.inr ⟨'}', hlast, by decide⟩)
    have h5 : trimChars (cleanList l) = cleanList l := by
      show revDropWhile isJsSpace ((cleanList l).dropWhile isJsSpace) = cleanList l
      rw [hcs, dropWhile_id_of_head (by decide), ← hcs]
      exact revDropWhile_id (Or.inr ⟨'}', hlast, by decide⟩)
    show trimChars (dropAfterRBrace (dropToLBrace (stripFence (stripJsonFence
      (cleanList l))))) = cleanList l
    rw [h1, h2, h3, h4, h5]

/-- C8: `cleanAIResponse` always returns either the empty string or a
string that begins with a left brace and ends with a right brace, and it
is idempotent. -/
theorem c8_cleanAIResponse_shape_and_idempotent (s : String) :
    ((cleanAIResponse s).data = [] ∨
      ((cleanAIResponse s).data.head? = some '{' ∧
        (cleanAIResponse s).data.getLast? = some '}')) ∧
    cleanAIResponse (cleanAIResponse s) = cleanAIResponse s := by
  constructor
  · exact cleanList_shape s.data
  · exact congrArg String.mk (cleanList_idem s.data)
